import Mathlib

/-!
Verification development for the RE_BO repository, shallow embedding of
src/RE_7D_search/search_7D.py: the simulator adapter sim_fn, the
discrepancy function distance1, the model graph data of get_model, the
optimum extractor find_optimum_value, and the search-loop controller of
the __main__ block (initial evidence collection, the 20-iteration
refinement loop with its alternating hyperparameter-constraint regimes,
snapshotting and the two exception-recovery paths).
-/

namespace RESearch7D

/-- Names bound at the top level of the module search_7D.py: the import
statements of lines 1-25 bind numpy, plt, h5py, pickle, stats,
differential_evolution, multiprocessing, elfi, GPy, GPyRegression,
RandMaxVar, LCBSC, ModelPrior, run_CQ_fluid_simulation_vTf,
IP_summary_25ms and save_bolfi, and the module defines sim_fn, distance1,
get_model and find_optimum_value. A global name referenced inside a
function body is resolved against this namespace and then against the
Python builtins, which contain neither np nor batch_index. -/
def moduleTopLevelNames : List String :=
  ["numpy", "plt", "h5py", "pickle", "stats", "differential_evolution",
   "multiprocessing", "elfi", "GPy", "GPyRegression", "RandMaxVar", "LCBSC",
   "ModelPrior", "run_CQ_fluid_simulation_vTf", "IP_summary_25ms",
   "save_bolfi", "sim_fn", "distance1", "get_model", "find_optimum_value"]

/-- The elementwise L1 sum that the docstring of distance1 describes:
the sum of absolute elementwise differences of two equal-length numeric
sequences (sum(abs(x - y))). -/
def l1Sum (x y : List ℚ) : ℚ :=
  ((x.zip y).map (fun p => |p.1 - p.2|)).sum

/-- Embedding of distance1 (lines 63-79). The body evaluates
np.sum(np.abs(x - y)): the name np must resolve in the module namespace,
but the module imports numpy under the name numpy (line 2) and never
binds np, so evaluating the body raises NameError before any arithmetic
happens. Had the name resolved to numpy, the function would return the
one-element array holding the L1 sum, as the docstring states. -/
def distance1 (summary observed : List ℚ) : Except String (List ℚ) :=
  if "np" ∈ moduleTopLevelNames then
    Except.ok [l1Sum summary observed]
  else
    Except.error ("NameError: name np is not defined")

/-- bolfi.n_initial_evidence as set at line 192. -/
def n_initial_evidence : ℕ := 150

/-- The evidence target requested by refinement iteration i at line 223:
bolfi.fit(n_evidence = 150 + 50*i). -/
def refinementTarget (i : ℕ) : ℕ := 150 + 50 * i

/-- The sequence of evidence counts at which the controller checkpoints:
the initial target (line 198, snapshot at line 205) followed by the
targets of the 20 refinement iterations (lines 218-224). -/
def checkpointTargets : List ℕ :=
  n_initial_evidence :: (List.range 20).map refinementTarget

/-- Snapshot filename written after the initial phase (line 205). -/
def initialSnapshotName : String :=
  "BOLFI_7D_initial_" ++ toString n_initial_evidence ++ ".pkl"

/-- Snapshot filename written by refinement iteration i (line 224). -/
def refinementSnapshotName (i : ℕ) : String :=
  "BOLFI_7D_at_" ++ toString (150 + 50 * i) ++ ".pkl"

/-- The snapshot filenames written by an exception-free run: the initial
snapshot followed by one snapshot per refinement iteration i = 0..19. -/
def nominalSnapshots : List String :=
  initialSnapshotName :: (List.range 20).map refinementSnapshotName

/-- State of bolfi.batches as far as the initial-collection recovery path
touches it: the private batch counter _next_batch_index and the number of
pending work units. -/
structure BatchesState where
  nextBatchIndex : ℕ
  pending : ℕ
  deriving DecidableEq

/-- Names in scope at the initial-collection exception handler
(lines 200-202): the module namespace plus the names the __main__ block
has bound by then (m at line 153, log_d at 156, dictionary_name at 161,
result_dictionary at 163, kernel at 170, bounds_dict at 175, tmn at 179,
bolfi at 183, iteration_accepted at 195). The dictionary_name == None
branch is taken at line 162, so f and result_dict are never bound.
batch_index is not among these names and is not a Python builtin. -/
def mainScopeNames : List String :=
  moduleTopLevelNames ++
    ["m", "log_d", "dictionary_name", "result_dictionary", "kernel",
     "bounds_dict", "tmn", "bolfi", "iteration_accepted"]

/-- One pass of the initial-collection retry loop (lines 196-202), given
whether bolfi.fit raised. On success the flag iteration_accepted is set
and the loop will exit. On failure the except block runs
bolfi.batches.cancel_pending() and then the assignment
bolfi.batches._next_batch_index = batch_index + 1, whose right-hand side
reads the name batch_index; the name is unbound, so the handler itself
raises NameError (the then-branch below is unreachable, and the successor
value written there is immaterial). -/
def initialAttempt (fitOk : Bool) (st : BatchesState) :
    Except String (Bool × BatchesState) :=
  if fitOk then
    Except.ok (true, st)
  else
    let st1 : BatchesState := ⟨st.nextBatchIndex, 0⟩
    if "batch_index" ∈ mainScopeNames then
      Except.ok (false, ⟨st1.nextBatchIndex + 1, st1.pending⟩)
    else
      Except.error ("NameError: name batch_index is not defined")

/-- The initial-collection while loop (lines 195-202), driven by a list
of fit outcomes (one per attempted pass). Returns the batches state on
acceptance, Option.none if the outcome list is exhausted while still
retrying, and propagates any exception escaping a pass. -/
def initialLoop : List Bool → BatchesState → Except String (Option BatchesState)
  | [], _ => Except.ok Option.none
  | o :: rest, st =>
    match initialAttempt o st with
    | Except.error e => Except.error e
    | Except.ok (true, st1) => Except.ok (some st1)
    | Except.ok (false, st1) => initialLoop rest st1

/-- The prior names in the order get_model declares them (lines 94-100). -/
def priorNames : List String :=
  ["Tf1", "Tf2", "tmin", "nAr", "log_walltime", "alpha", "beta"]

/-- Modelled from the spec: ELFI's ElfiModel.parameter_names (the order in
which GPyRegression receives the bounds and the kernel indexes its 7 ARD
dimensions) is the alphabetically sorted list of the model's parameter
names; ELFI itself is not part of this repository. The per-dimension
comments of the odd-round constraint block (lines 238-251: 0 initial
temperature, 1 final temperature, 2 alpha, 3 beta, 4 log_walltime,
5 argon fraction, 6 tmin) follow exactly this order. -/
def parameter_names : List String :=
  ["Tf1", "Tf2", "alpha", "beta", "log_walltime", "nAr", "tmin"]

/-- Lexicographic comparison of character lists by codepoint, the order
Python's sorted() applies to the parameter names. -/
def charListLt : List Char → List Char → Bool
  | [], [] => false
  | [], _ :: _ => true
  | _ :: _, [] => false
  | a :: as, b :: bs =>
    if a < b then true else if b < a then false else charListLt as bs

theorem parameter_names_sorted_perm :
    List.Pairwise (fun a b => charListLt a.data b.data = true) parameter_names ∧
    parameter_names.Perm priorNames := by
  constructor
  · decide
  · decide

/-- Observable actions of one refinement iteration body (lines 222-253)
and of its exception handler (lines 259-260). -/
inductive Ev where
  | fit (target : ℕ)
  | save (fname : String)
  | fixNoise
  | constrainPositive
  | constrainBounded (dim : ℕ) (lo hi : ℚ)
  | seedLengthscale (dim : ℕ)
  | randomize
  | optimize
  | printMsg (s : String)
  | resetBatches
  deriving DecidableEq

/-- The fallible calls of the refinement try block at which an exception
can be injected: bolfi.fit (line 223), save_bolfi (line 224), and the
final inst.optimize() of either branch (line 236 or 253). -/
inductive Step where
  | fitStep
  | saveStep
  | optimizeStep
  deriving DecidableEq

/-- The fixed lengthscale intervals of the odd-round constraint block
(lines 239-251), indexed by kernel dimension in parameter_names order:
0 Tf1 (1e-3, 1.0), 1 Tf2 (1e-3, 1.0), 2 alpha (1e-3, 0.5),
3 beta (1e-3, 0.5), 4 log_walltime (1e-3, 0.1), 5 nAr (1e-3, 1.0),
6 tmin (1e-6, 1e-3). -/
def oddRoundLengthscaleBounds : List (ℚ × ℚ) :=
  [(1/1000, 1), (1/1000, 1), (1/1000, 1/2), (1/1000, 1/2),
   (1/1000, 1/10), (1/1000, 1), (1/1000000, 1/1000)]

/-- Width of the odd-round lengthscale interval of dimension k. -/
def lengthscaleWidth (k : ℕ) : ℚ :=
  (oddRoundLengthscaleBounds.getD k (0, 0)).2 -
    (oddRoundLengthscaleBounds.getD k (0, 0)).1

/-- The even-round re-tune actions (lines 230-236):
kernel.lengthscale.constrain_positive(), inst.randomize(), the seeding
loop for i in range(7) writing bound-range/evidence-count into each
lengthscale, then inst.optimize(). -/
def evenRetuneEvents : List Ev :=
  [Ev.constrainPositive, Ev.randomize] ++
    (List.range 7).map Ev.seedLengthscale ++ [Ev.optimize]

/-- The odd-round re-tune actions (lines 238-253): the seven fixed
kernel.lengthscale[[k]].constrain_bounded(lo, hi) calls in source order,
then inst.randomize() and inst.optimize(), with no seeding step. -/
def oddRetuneEvents : List Ev :=
  [Ev.constrainBounded 0 (1/1000) 1,
   Ev.constrainBounded 1 (1/1000) 1,
   Ev.constrainBounded 2 (1/1000) (1/2),
   Ev.constrainBounded 3 (1/1000) (1/2),
   Ev.constrainBounded 4 (1/1000) (1/10),
   Ev.constrainBounded 5 (1/1000) 1,
   Ev.constrainBounded 6 (1/1000000) (1/1000),
   Ev.randomize, Ev.optimize]

/-- The re-tune actions chosen by the parity test i % 2 == 0 of
line 230, where iv is the current value of the Python variable i. -/
def retuneEvents (iv : ℕ) : List Ev :=
  if iv % 2 == 0 then evenRetuneEvents else oddRetuneEvents

/-- Result of one execution of the refinement try block: the actions it
performed, the value held by the Python variable i when control leaves
the block, and whether it left by raising. -/
structure TryResult where
  events : List Ev
  iAfter : ℕ
  raised : Bool
  deriving DecidableEq

/-- The part of the try block from line 223 on, entered with the Python
variable i holding iv, given whether the final inst.optimize() raises.
In the even branch the seeding loop for i in range(7) (line 233) rebinds
the same variable i, so i = 6 when control leaves the branch, whether
optimize returns or raises; the odd branch leaves i untouched. -/
def bodyAfterSave (iv : ℕ) (optFails : Bool) : TryResult :=
  let headEvs := [Ev.fit (refinementTarget iv),
                  Ev.save (refinementSnapshotName iv), Ev.fixNoise]
  if iv % 2 == 0 then
    ⟨headEvs ++ evenRetuneEvents, 6, optFails⟩
  else
    ⟨headEvs ++ oddRetuneEvents, iv, optFails⟩

/-- One execution of the refinement try block (lines 222-253), entered
with the Python variable i holding iv; failAt injects an exception at
one of the fallible calls (Option.none runs the block to completion). -/
def runTryBody : Option Step → ℕ → TryResult
  | some Step.fitStep, iv =>
    ⟨[Ev.fit (refinementTarget iv)], iv, true⟩
  | some Step.saveStep, iv =>
    ⟨[Ev.fit (refinementTarget iv), Ev.save (refinementSnapshotName iv)],
     iv, true⟩
  | some Step.optimizeStep, iv => bodyAfterSave iv true
  | Option.none, iv => bodyAfterSave iv false

/-- The refinement while loop (lines 221-260) driven by a failure script
(one entry per executed pass of the try block). When a pass raises, the
except handler prints a diagnostic and calls bolfi.batches.reset() — it
touches no batch index — and the loop retries with whatever value the
Python variable i now holds. Returns the accumulated actions, the final
value of i, and whether a pass was accepted before the script ran out. -/
def refinementWhile : List (Option Step) → ℕ → List Ev × ℕ × Bool
  | [], iv => ([], iv, false)
  | f :: rest, iv =>
    let r := runTryBody f iv
    if r.raised then
      let k := refinementWhile rest r.iAfter
      (r.events ++ [Ev.printMsg ("Exception!"), Ev.resetBatches] ++ k.1,
       k.2.1, k.2.2)
    else
      (r.events, r.iAfter, true)

/-- The fit targets requested by a trace of actions, in order. -/
def fitTargets (evs : List Ev) : List ℕ :=
  evs.filterMap (fun e =>
    match e with
    | Ev.fit t => some t
    | _ => Option.none)

/-- The snapshot filenames written by a trace of actions, in order. -/
def saveNames (evs : List Ev) : List String :=
  evs.filterMap (fun e =>
    match e with
    | Ev.save fname => some fname
    | _ => Option.none)

/-- The argument record sim_fn passes to run_CQ_fluid_simulation_vTf
(lines 47-55): the seven physical parameters, the fixed seed count
Nre = 1e10, and the four file paths (the last two keyed by str(Tf1)). -/
structure RunCQCall where
  Tf1 : ℚ
  Tf2 : ℚ
  t_T_f : ℚ
  nAr_frac : ℚ
  walltime : ℚ
  alpha : ℚ
  beta : ℚ
  Nre : ℚ
  inputfilename : String
  outputfilename : String
  initoutfile : String
  CQfluidoutfile : String

/-- The container returned by the external simulation as sim_fn reads it
(lines 57-59): the time grid file1.grid.t and the plasma-current series
file1.eqsys.I_p after numpy.squeeze has reduced it to one dimension. -/
structure SimOutput where
  t : List ℚ
  Ip : List ℚ

/-- Modelled from the spec: run_CQ_fluid_simulation_vTf is imported from
a repository file that is not under src/; the spec describes it as an
opaque external simulation invoked with named parameters and auxiliary
fixed settings, returning a keyed container exposing a time grid and a
current series. It is modelled as an arbitrary function from the call
arguments to such a container. -/
def ExternalSim : Type := RunCQCall → SimOutput

/-- The call sim_fn builds at lines 47-55. BOLFI hands each parameter to
sim_fn as a length-1 batch array and sim_fn reads entry [0] of each; the
scalars below stand for those entries. expFn stands for numpy.exp: the
wall-time argument passed down is exp of the log-scale input. -/
def sim_fnCall (expFn : ℚ → ℚ)
    (Tf1 Tf2 tmin nAr log_walltime alpha beta : ℚ) : RunCQCall :=
  ⟨Tf1, Tf2, tmin, nAr, expFn log_walltime, alpha, beta, 10000000000,
   "bolfi_7D_runs/test1i.h5", "bolfi_7D_runs/test1o.h5",
   "bolfi_7D_runs/" ++ toString Tf1 ++ "init_out.h5",
   "bolfi_7D_runs/" ++ toString Tf1 ++ "CQ_fluid_out.h5"⟩

/-- Embedding of sim_fn (lines 28-61): invokes the external simulation on
the call record above and returns the two-row output, row 0 the time grid
and row 1 the squeezed current trace. batch_size and random_state are
accepted because BOLFI passes them, and are never read (the source
docstring calls them dummy variables). -/
def sim_fn (expFn : ℚ → ℚ) (sim : ExternalSim)
    (Tf1 Tf2 tmin nAr log_walltime alpha beta : ℚ)
    (batch_size : ℕ) (random_state : Option ℕ) : List ℚ × List ℚ :=
  let file1 := sim (sim_fnCall expFn Tf1 Tf2 tmin nAr log_walltime alpha beta)
  (file1.t, file1.Ip)

/-- The initialization strategies scipy's differential_evolution accepts;
find_optimum_value passes latinhypercube. -/
inductive InitStrategy where
  | latinhypercube
  | sobol
  | random
  deriving DecidableEq

/-- The configuration find_optimum_value hands to differential_evolution
(lines 136-138). seed = Option.none would mean fresh nondeterministic
seeding; the source passes the fixed seed 0. -/
structure DEConfig where
  maxiter : ℕ
  polish : Bool
  init : InitStrategy
  popsize : ℕ
  seed : Option ℕ
  deriving DecidableEq

/-- The result object of differential_evolution, of which
find_optimum_value returns the field x. -/
structure DEResult where
  x : List ℚ

/-- Modelled from the spec: scipy.optimize.differential_evolution is a
third-party population-based global optimizer, not code of this
repository; it is modelled as an arbitrary function of the objective, the
per-dimension bounds and the configuration. Being a function, it returns
the same point whenever called on the same inputs, which is what the
fixed integer seed guarantees for the library. -/
def DESolver : Type := (List ℚ → ℚ) → List (ℚ × ℚ) → DEConfig → DEResult

/-- The literal configuration of the differential_evolution call at
lines 136-138: maxiter=1000, polish=True, init latinhypercube,
popsize=starting_points, seed=0. -/
def findOptimumConfig (starting_points : ℕ) : DEConfig :=
  ⟨1000, true, InitStrategy.latinhypercube, starting_points, some 0⟩

/-- Embedding of find_optimum_value (lines 125-140): wraps the surrogate
mean prediction as the scalar objective fun_1d (ravel is the identity on
the scalar predictions) and returns result.x of the
differential_evolution call. -/
def find_optimum_value (de : DESolver) (target_model : List ℚ → ℚ)
    (bounds : List (ℚ × ℚ)) (starting_points : ℕ) : List ℚ :=
  let fun_1d : List ℚ → ℚ := fun x => target_model x
  (de fun_1d bounds (findOptimumConfig starting_points)).x

/-- Membership of a point in the box given by per-dimension bounds. -/
def inBox (bounds : List (ℚ × ℚ)) (x : List ℚ) : Prop :=
  x.length = bounds.length ∧
    ∀ p ∈ x.zip bounds, p.2.1 ≤ p.1 ∧ p.1 ≤ p.2.2

/-- x is a point of the box minimizing f over the box. -/
def MinimizesOn (f : List ℚ → ℚ) (bounds : List (ℚ × ℚ)) (x : List ℚ) : Prop :=
  inBox bounds x ∧ ∀ y, inBox bounds y → f x ≤ f y

/-- A demonstration external simulation used to instantiate theorems at a
concrete input: constant output with a 3-point grid. -/
def demoSim : ExternalSim := fun _ => ⟨[0, 1, 2], [3, 4, 5]⟩

/-- A demonstration solver used to instantiate theorems at a concrete
input: always returns the one-dimensional point [0]. -/
def demoDE : DESolver := fun _ _ _ => ⟨[0]⟩

/-- The seven priors as get_model declares them (lines 94-100), in source
order: name, loc and scale of the uniform distribution, whose support is
the interval from loc to loc + scale. -/
def priorsList : List (String × ℚ × ℚ) :=
  [("Tf1", 1, 19), ("Tf2", 1, 19), ("tmin", 1/1000, 44/1000),
   ("nAr", 1/1000, 100), ("log_walltime", 0, 7),
   ("alpha", 1/1000, 10), ("beta", 1/1000, 10)]

/-- bounds_dict (lines 175-178), the per-dimension intervals handed to
GPyRegression and to BOLFI: name, lower bound and upper bound. -/
def bounds_dict : List (String × ℚ × ℚ) :=
  [("Tf1", 1, 20), ("Tf2", 1, 20), ("tmin", 1/1000, 44/1000),
   ("nAr", 1/1000, 100), ("log_walltime", 0, 7),
   ("alpha", 1/1000, 10), ("beta", 1/1000, 10)]

/-- Find the pair of rationals recorded under a name. -/
def lookupPair (l : List (String × ℚ × ℚ)) (n : String) : Option (ℚ × ℚ) :=
  (l.find? (fun p => p.1 == n)).map (fun p => p.2)

/-- Support interval of the declared uniform prior of a parameter:
(loc, loc + scale). -/
def priorSupport (n : String) : Option (ℚ × ℚ) :=
  (lookupPair priorsList n).map (fun p => (p.1, p.1 + p.2))

/-- The surrogate bound interval of a parameter. -/
def surrogateBound (n : String) : Option (ℚ × ℚ) :=
  lookupPair bounds_dict n

/-- How many of the seven parameters have prior support equal to their
surrogate bound interval. -/
def matchingParamCount : ℕ :=
  (priorNames.filter (fun n => priorSupport n == surrogateBound n)).length

theorem l1Sum_self (x : List ℚ) : l1Sum x x = 0 := by
  induction x with
  | nil => rfl
  | cons a t ih =>
    simp only [l1Sum, List.zip_cons_cons, List.map_cons, List.sum_cons,
      sub_self, abs_zero, zero_add]
    exact ih

theorem l1Sum_nonneg (x y : List ℚ) : 0 ≤ l1Sum x y := by
  refine List.sum_nonneg ?_
  intro q hq
  simp only [List.mem_map] at hq
  obtain ⟨p, _, rfl⟩ := hq
  exact abs_nonneg _

/-- Claim C1: the claim says distance1 returns the single-element array
of the L1 sum, zero on identical inputs and non-negative always. The
intended value l1Sum indeed has those properties, but the body of
distance1 reads the unbound name np, so every call raises NameError and
no value is ever returned. -/
theorem C1_distance1_raises_NameError (x y : List ℚ) :
    distance1 x y = Except.error ("NameError: name np is not defined") ∧
    "np" ∉ moduleTopLevelNames ∧
    l1Sum x x = 0 ∧ 0 ≤ l1Sum x y := by
  have hnp : "np" ∉ moduleTopLevelNames := by decide
  refine ⟨?_, hnp, l1Sum_self x, l1Sum_nonneg x y⟩
  simp [distance1, hnp]

/-- Claim C2 as stated is false on the code: the second checkpoint target
repeats 150 (the claimed schedule demands 200 there), the target sequence
is not strictly increasing, and no checkpoint ever reaches 1150. -/
theorem C2_schedule_counterexample :
    checkpointTargets.getD 0 0 = 150 ∧
    checkpointTargets.getD 1 0 = 150 ∧
    ¬ List.Pairwise (· < ·) checkpointTargets ∧
    (1150 : ℕ) ∉ checkpointTargets ∧
    checkpointTargets.length = 21 := by decide

/-- Claim C2 amended: the checkpoint targets are the initial 150 followed
by 150 + 50*i for refinement iterations i = 0..19, i.e. 150, 150, 200,
..., 1100; the sequence is non-decreasing (checkpoints never regress) but
the first refinement checkpoint repeats 150, so it is not strictly
increasing and its maximum is 1100, not 1150. -/
theorem C2_schedule_amended :
    checkpointTargets =
      [150, 150, 200, 250, 300, 350, 400, 450, 500, 550, 600, 650, 700,
       750, 800, 850, 900, 950, 1000, 1050, 1100] ∧
    List.Pairwise (· ≤ ·) checkpointTargets ∧
    (∀ i, refinementTarget i = 150 + 50 * i) :=
  ⟨by decide, by decide, fun _ => rfl⟩

/-- Claim C3: the claim (and the spec's intent) is that a fit failure in
the initial collection cancels pending work, advances the batch index by
one and retries. In the code the handler reads the unbound name
batch_index, so the first fit failure raises NameError out of the loop
and the run aborts: no retry happens and no batch index is advanced. -/
theorem C3_initial_retry_raises_NameError (st : BatchesState) (rest : List Bool) :
    initialLoop (false :: rest) st =
      Except.error ("NameError: name batch_index is not defined") ∧
    "batch_index" ∉ mainScopeNames := by
  have hbi : "batch_index" ∉ mainScopeNames := by decide
  refine ⟨?_, hbi⟩
  have h1 : initialAttempt false st =
      Except.error ("NameError: name batch_index is not defined") := by
    simp [initialAttempt, hbi]
  simp [initialLoop, h1]

/-- Claim C4: an exception in a refinement pass is caught, a diagnostic
is printed and pending batches are reset, and no batch index is touched —
but the retried target is not always the same one. The even-round seeding
loop rebinds the Python variable i to 6, so when inst.optimize() raises
in refinement iteration i = 0 the retry fits to 150 + 50*6 = 450 instead
of 150: the trace below requests targets 150 then 450. -/
theorem C4_retry_target_clobbered :
    fitTargets (refinementWhile [some Step.optimizeStep, Option.none] 0).1 =
      [150, 450] ∧
    Ev.printMsg ("Exception!") ∈
      (refinementWhile [some Step.optimizeStep, Option.none] 0).1 ∧
    Ev.resetBatches ∈
      (refinementWhile [some Step.optimizeStep, Option.none] 0).1 ∧
    (refinementWhile [some Step.optimizeStep, Option.none] 0).2.2 = true ∧
    refinementTarget 0 = 150 ∧ (450 : ℕ) ≠ 150 := by decide

/-- Claim C5 as stated is false on the code: save_bolfi sits inside the
retry loop before the re-tune steps, so when inst.optimize() raises in an
odd round after the save succeeded (here refinement iteration i = 1), the
while loop retries with i unchanged and re-executes the save with the
same filename — the trace writes BOLFI_7D_at_200.pkl twice, overwriting
the first copy, so snapshots are not never-overwritten during a run. -/
theorem C5_snapshot_overwrite_counterexample :
    (saveNames (refinementWhile [some Step.optimizeStep, Option.none] 1).1).count
        "BOLFI_7D_at_200.pkl" = 2 ∧
    saveNames (refinementWhile [some Step.optimizeStep, Option.none] 1).1 =
      ["BOLFI_7D_at_200.pkl", "BOLFI_7D_at_200.pkl"] ∧
    ¬ (saveNames (refinementWhile [some Step.optimizeStep, Option.none] 1).1).Nodup := by
  decide

/-- Claim C5 amended: the snapshot written after the initial phase is
tagged with evidence count 150 and refinement iteration i writes the
snapshot tagged 150 + 50*i (inside the try block, before re-tuning); in
an exception-free run the 21 filenames are pairwise distinct, so the
artifact set only grows and no snapshot file is overwritten — but when a
re-tune step raises after the save, the retry re-executes the save with
the same filename and overwrites that snapshot. -/
theorem C5_snapshot_names :
    nominalSnapshots.Nodup ∧
    initialSnapshotName = "BOLFI_7D_initial_150.pkl" ∧
    refinementSnapshotName 0 = "BOLFI_7D_at_150.pkl" ∧
    refinementSnapshotName 19 = "BOLFI_7D_at_1100.pkl" ∧
    nominalSnapshots.length = 21 ∧
    (∀ i, Ev.save (refinementSnapshotName i) ∈ (runTryBody Option.none i).events) := by
  refine ⟨by decide, by decide, by decide, by decide, by decide, ?_⟩
  intro i
  by_cases h : i % 2 == 0 <;>
    simp [runTryBody, bodyAfterSave, h]

/-- Claim C6: in every odd refinement round each of the 7 kernel
lengthscale dimensions is constrained to a fixed dimension-specific
bounded interval (all with 0 < lo < hi); the tmin dimension (index 6 in
the parameter order) gets an interval exactly 1000 times narrower than
those of the temperature dimensions Tf1 and Tf2 (indices 0 and 1); the
hyperparameters are then randomized and optimized, with no
bound-range/evidence-count seeding step in the odd branch. -/
theorem C6_odd_round_constraints (iv : ℕ) (h : iv % 2 = 1) :
    retuneEvents iv = oddRetuneEvents ∧
    oddRoundLengthscaleBounds.length = 7 ∧
    (∀ p ∈ oddRoundLengthscaleBounds, 0 < p.1 ∧ p.1 < p.2) ∧
    (∀ k, k < 7 →
      Ev.constrainBounded k (oddRoundLengthscaleBounds.getD k (0, 0)).1
        (oddRoundLengthscaleBounds.getD k (0, 0)).2 ∈ oddRetuneEvents) ∧
    parameter_names.getD 6 "" = "tmin" ∧
    parameter_names.getD 0 "" = "Tf1" ∧
    parameter_names.getD 1 "" = "Tf2" ∧
    1000 * lengthscaleWidth 6 = lengthscaleWidth 0 ∧
    1000 * lengthscaleWidth 6 = lengthscaleWidth 1 ∧
    (∀ k, Ev.seedLengthscale k ∉ oddRetuneEvents) ∧
    Ev.randomize ∈ oddRetuneEvents ∧ Ev.optimize ∈ oddRetuneEvents ∧
    (∃ k, Ev.seedLengthscale k ∈ evenRetuneEvents) := by
  have hbranch : retuneEvents iv = oddRetuneEvents := by
    simp [retuneEvents, h]
  refine ⟨hbranch, by decide, ?_, ?_, by decide, by decide, by decide,
    ?_, ?_, ?_, by decide, by decide, ⟨0, by decide⟩⟩
  · intro p hp
    fin_cases hp <;> norm_num
  · intro k hk
    interval_cases k <;>
      simp [oddRetuneEvents, oddRoundLengthscaleBounds]
  · simp only [lengthscaleWidth, oddRoundLengthscaleBounds, List.getD_cons_zero,
      List.getD_cons_succ]
    norm_num
  · simp only [lengthscaleWidth, oddRoundLengthscaleBounds, List.getD_cons_zero,
      List.getD_cons_succ]
    norm_num
  · intro k
    simp [oddRetuneEvents]

theorem C6_odd_round_constraints_witness :
    1 % 2 = 1 ∧ retuneEvents 1 = oddRetuneEvents :=
  ⟨by decide, (C6_odd_round_constraints 1 (by decide)).1⟩

/-- Claim C7: sim_fn passes the wall-time parameter to the external
simulation as expFn (numpy.exp) applied to the log-scale input, and
returns the two-row output whose row 0 is the simulation time grid and
whose row 1 is the current trace; when the simulation returns a grid and
a trace of equal length, the two rows have equal length. -/
theorem C7_sim_fn_walltime_and_rows (expFn : ℚ → ℚ) (sim : ExternalSim)
    (Tf1 Tf2 tmin nAr log_walltime alpha beta : ℚ)
    (bs : ℕ) (rs : Option ℕ) :
    (sim_fnCall expFn Tf1 Tf2 tmin nAr log_walltime alpha beta).walltime =
      expFn log_walltime ∧
    sim_fn expFn sim Tf1 Tf2 tmin nAr log_walltime alpha beta bs rs =
      ((sim (sim_fnCall expFn Tf1 Tf2 tmin nAr log_walltime alpha beta)).t,
       (sim (sim_fnCall expFn Tf1 Tf2 tmin nAr log_walltime alpha beta)).Ip) ∧
    ((sim (sim_fnCall expFn Tf1 Tf2 tmin nAr log_walltime alpha beta)).t.length =
        (sim (sim_fnCall expFn Tf1 Tf2 tmin nAr log_walltime alpha beta)).Ip.length →
      (sim_fn expFn sim Tf1 Tf2 tmin nAr log_walltime alpha beta bs rs).1.length =
        (sim_fn expFn sim Tf1 Tf2 tmin nAr log_walltime alpha beta bs rs).2.length) :=
  ⟨rfl, rfl, fun h => h⟩

theorem C7_sim_fn_walltime_and_rows_witness :
    (sim_fn (fun q => q) demoSim 1 2 3 4 5 6 7 1 Option.none).1.length =
      (sim_fn (fun q => q) demoSim 1 2 3 4 5 6 7 1 Option.none).2.length ∧
    (sim_fnCall (fun q => q) 1 2 3 4 5 6 7).walltime = 5 :=
  ⟨(C7_sim_fn_walltime_and_rows (fun q => q) demoSim 1 2 3 4 5 6 7 1
      Option.none).2.2 rfl,
   (C7_sim_fn_walltime_and_rows (fun q => q) demoSim 1 2 3 4 5 6 7 1
      Option.none).1⟩

/-- Claim C8: find_optimum_value calls the population-based global
optimizer with the fixed seed 0 (hence, the solver being a function of
its inputs, repeated calls on the same inputs return the same point),
latin-hypercube initialization, the bounded iteration count 1000 and a
final polish step, and returns the x field of the solver result on the
surrogate mean objective; whenever the solver call satisfies its
documented contract of returning a minimizer of the objective inside the
bounded box, so does find_optimum_value. -/
theorem C8_find_optimum_value_contract (de : DESolver) (tm : List ℚ → ℚ)
    (bounds : List (ℚ × ℚ)) (sp : ℕ) :
    (findOptimumConfig sp).seed = some 0 ∧
    (findOptimumConfig sp).init = InitStrategy.latinhypercube ∧
    (findOptimumConfig sp).maxiter = 1000 ∧
    (findOptimumConfig sp).polish = true ∧
    (findOptimumConfig sp).popsize = sp ∧
    find_optimum_value de tm bounds sp =
      (de (fun x => tm x) bounds (findOptimumConfig sp)).x ∧
    (MinimizesOn tm bounds ((de (fun x => tm x) bounds (findOptimumConfig sp)).x) →
      MinimizesOn tm bounds (find_optimum_value de tm bounds sp)) :=
  ⟨rfl, rfl, rfl, rfl, rfl, rfl, fun h => h⟩

theorem C8_find_optimum_value_contract_witness :
    MinimizesOn (fun _ => (0 : ℚ)) [(0, 1)]
      (find_optimum_value demoDE (fun _ => (0 : ℚ)) [(0, 1)] 100) ∧
    (findOptimumConfig 100).seed = some 0 :=
  ⟨(C8_find_optimum_value_contract demoDE (fun _ => (0 : ℚ)) [(0, 1)] 100).2.2.2.2.2.2
      ⟨by norm_num [inBox, demoDE], fun y hy => le_refl 0⟩,
   (C8_find_optimum_value_contract demoDE (fun _ => (0 : ℚ)) [(0, 1)] 100).1⟩

/-- Claim C9: the output of sim_fn does not depend on batch_size or
random_state: two calls that agree on the seven parameters (and on the
simulation and exp functions) and differ only in those two arguments
return the same result. -/
theorem C9_sim_fn_ignores_batch_args (expFn : ℚ → ℚ) (sim : ExternalSim)
    (Tf1 Tf2 tmin nAr log_walltime alpha beta : ℚ)
    (bs1 bs2 : ℕ) (rs1 rs2 : Option ℕ) :
    sim_fn expFn sim Tf1 Tf2 tmin nAr log_walltime alpha beta bs1 rs1 =
      sim_fn expFn sim Tf1 Tf2 tmin nAr log_walltime alpha beta bs2 rs2 :=
  rfl

/-- Claim C10 as stated is false on the code: tmin is not the only
parameter whose prior support differs from its surrogate bound; the nAr
prior has support up to 100.001 while its surrogate bound ends at 100. -/
theorem C10_support_bound_counterexample :
    priorSupport "nAr" = some (1/1000, 1/1000 + 100) ∧
    surrogateBound "nAr" = some (1/1000, 100) ∧
    priorSupport "nAr" ≠ surrogateBound "nAr" := by
  refine ⟨rfl, rfl, ?_⟩
  show ¬ (some ((1 : ℚ)/1000, (1 : ℚ)/1000 + 100) = some ((1 : ℚ)/1000, (100 : ℚ)))
  norm_num

/-- Claim C10 amended: only three of the seven parameters (Tf1, Tf2 and
log_walltime) have prior support [loc, loc + scale] equal to their
surrogate bound interval. The tmin pair differs exactly as the claim
describes (support up to 0.045, bound up to 0.044), but nAr, alpha and
beta differ as well, each prior support exceeding the bound's upper
endpoint by 0.001; so the prior can propose values outside the declared
box in four dimensions, tmin among them. -/
theorem C10_support_vs_bounds_amended :
    priorSupport "Tf1" = surrogateBound "Tf1" ∧
    priorSupport "Tf2" = surrogateBound "Tf2" ∧
    priorSupport "log_walltime" = surrogateBound "log_walltime" ∧
    priorSupport "tmin" = some (1/1000, 45/1000) ∧
    surrogateBound "tmin" = some (1/1000, 44/1000) ∧
    priorSupport "tmin" ≠ surrogateBound "tmin" ∧
    (44 : ℚ)/1000 < 45/1000 ∧
    priorSupport "nAr" = some (1/1000, 100001/1000) ∧
    surrogateBound "nAr" = some (1/1000, 100) ∧
    priorSupport "alpha" = some (1/1000, 10001/1000) ∧
    surrogateBound "alpha" = some (1/1000, 10) ∧
    priorSupport "alpha" ≠ surrogateBound "alpha" ∧
    priorSupport "beta" = some (1/1000, 10001/1000) ∧
    surrogateBound "beta" = some (1/1000, 10) ∧
    priorSupport "beta" ≠ surrogateBound "beta" := by
  refine ⟨?_, ?_, ?_, ?_, rfl, ?_, by norm_num, ?_, rfl, ?_, rfl, ?_, ?_, rfl, ?_⟩
  · show some ((1 : ℚ), (1 : ℚ) + 19) = some ((1 : ℚ), (20 : ℚ))
    norm_num
  · show some ((1 : ℚ), (1 : ℚ) + 19) = some ((1 : ℚ), (20 : ℚ))
    norm_num
  · show some ((0 : ℚ), (0 : ℚ) + 7) = some ((0 : ℚ), (7 : ℚ))
    norm_num
  · show some ((1 : ℚ)/1000, (1 : ℚ)/1000 + 44/1000) = some ((1 : ℚ)/1000, (45 : ℚ)/1000)
    norm_num
  · show ¬ (some ((1 : ℚ)/1000, (1 : ℚ)/1000 + 44/1000) = some ((1 : ℚ)/1000, (44 : ℚ)/1000))
    norm_num
  · show some ((1 : ℚ)/1000, (1 : ℚ)/1000 + 100) = some ((1 : ℚ)/1000, (100001 : ℚ)/1000)
    norm_num
  · show some ((1 : ℚ)/1000, (1 : ℚ)/1000 + 10) = some ((1 : ℚ)/1000, (10001 : ℚ)/1000)
    norm_num
  · show ¬ (some ((1 : ℚ)/1000, (1 : ℚ)/1000 + 10) = some ((1 : ℚ)/1000, (10 : ℚ)))
    norm_num
  · show some ((1 : ℚ)/1000, (1 : ℚ)/1000 + 10) = some ((1 : ℚ)/1000, (10001 : ℚ)/1000)
    norm_num
  · show ¬ (some ((1 : ℚ)/1000, (1 : ℚ)/1000 + 10) = some ((1 : ℚ)/1000, (10 : ℚ)))
    norm_num

end RESearch7D
